import Mathlib

/-!
Verification of the `django-autoapi` scan/generate pipeline
(`django_auto_api/management/commands/autoapi_scan.py`,
`django_auto_api/llm_client.py`, `django_auto_api/prompts.py`).

The Python command is embedded shallowly: Django app configs become
`AppConfig` records carrying their models, the filesystem becomes a map
from paths to optional file contents, and the OpenAI call becomes an
oracle `String → LLMResult`. Every definition mirrors the corresponding
Python function; Python truthiness of optional strings and lists is made
explicit (empty string / empty list count as absent).
-/

namespace AutoApi

/-- A Django model field as seen through `model._meta.get_fields()`:
its name, the class name used as a type tag, and the `auto_created` and
`concrete` flags consulted by the field-metadata loop. -/
structure Field where
  name : String
  ftype : String
  auto_created : Bool
  concrete : Bool
deriving DecidableEq, Repr

/-- The `{"name": ..., "type": ...}` dict built per kept field. -/
structure FieldMeta where
  name : String
  ftype : String
deriving DecidableEq, Repr

/-- A Django model: `__name__` and its ordered field list. -/
structure MModel where
  name : String
  fields : List Field
deriving DecidableEq, Repr

/-- A Django app config: dotted module `name` (used for the contrib
check), `label` (used by all label filters), filesystem `path`, and the
result of `get_models()`. -/
structure AppConfig where
  name : String
  label : String
  path : String
  models : List MModel
deriving DecidableEq, Repr

/-- Lines 60-64 of `autoapi_scan.py`: drop every app whose dotted name
starts with `django.contrib`. -/
def dropContrib (apps : List AppConfig) : List AppConfig :=
  apps.filter (fun a => !(a.name.startsWith "django.contrib"))

/-- Lines 66-71: `if include_apps:` — the INCLUDE_APPS allow-list is
applied only when it is present and non-empty (Python truthiness). -/
def applyIncludeApps (includeApps : Option (List String)) (apps : List AppConfig) :
    List AppConfig :=
  match includeApps with
  | none => apps
  | some incl => if incl.isEmpty then apps else apps.filter (fun a => incl.contains a.label)

/-- Lines 73-77: `if app_label_filter:` — the `--app` CLI filter is
applied only when present and non-empty (Python truthiness). -/
def applyCliApp (cli : Option String) (apps : List AppConfig) : List AppConfig :=
  match cli with
  | none => apps
  | some lbl => if lbl = "" then apps else apps.filter (fun a => a.label == lbl)

/-- Lines 79-82: drop apps whose label is in EXCLUDE_APPS. -/
def applyExcludeApps (excl : List String) (apps : List AppConfig) : List AppConfig :=
  apps.filter (fun a => !(excl.contains a.label))

/-- The full selection chain of `handle` (lines 60-82), in source order:
contrib exclusion, INCLUDE_APPS, `--app`, EXCLUDE_APPS. -/
def selectApps (all : List AppConfig) (includeApps : Option (List String))
    (excl : List String) (cli : Option String) : List AppConfig :=
  applyExcludeApps excl (applyCliApp cli (applyIncludeApps includeApps (dropContrib all)))

/-- Lines 93-110 of `handle`: build `app_models_map`. An app is skipped
iff it has no models and `--include-empty` was not given; otherwise it
is added to the map together with its (possibly empty) model list. -/
def scanApps (includeEmpty : Bool) : List AppConfig → List (AppConfig × List MModel)
  | [] => []
  | a :: rest =>
    if a.models.isEmpty && !includeEmpty then scanApps includeEmpty rest
    else (a, a.models) :: scanApps includeEmpty rest

/-- `total_models`: the sum of the unit counts over the scanned map. -/
def totalModels (amap : List (AppConfig × List MModel)) : Nat :=
  (amap.map (fun e => e.2.length)).sum

/-- `avg_tokens_per_model = 1000` (line 129). -/
def avg_tokens_per_model : Nat := 1000

/-- `price_per_1k = 0.0009` (line 133), as an exact rational. -/
def price_per_1k : ℚ := 0.0009

/-- The budget projection printed by `--budget-only`. -/
structure Estimate where
  unit_count : Nat
  projected_token_count : Nat
  projected_cost : ℚ
deriving DecidableEq, Repr

/-- Lines 122-146 of `handle`: the `--budget-only` estimator. With zero
models it prints "nothing to estimate" and produces no numbers
(modelled as `none`); otherwise it projects `n * 1000` tokens and
`(tokens / 1000) * price_per_1k` cost. It never contacts the remote
service: the definition takes no oracle. -/
def estimate (n : Nat) : Option Estimate :=
  if n = 0 then none
  else some ⟨n, n * avg_tokens_per_model,
    ((n * avg_tokens_per_model : ℚ) / 1000) * price_per_1k⟩

/-- Lines 186-197 of `_generate_for_app`: the field-metadata loop.
A field is skipped iff `auto_created` is set and `concrete` is not;
every other field contributes a `{name, type}` record, in order. -/
def collectFieldsMeta : List Field → List FieldMeta
  | [] => []
  | f :: rest =>
    if f.auto_created && !f.concrete then collectFieldsMeta rest
    else ⟨f.name, f.ftype⟩ :: collectFieldsMeta rest

/-- `prompts.build_serializer_prompt`: the bulleted field lines. -/
def fieldsLines (fields : List FieldMeta) : String :=
  String.intercalate "\n" (fields.map (fun f => "- " ++ f.name ++ ": " ++ f.ftype))

/-- `prompts.build_serializer_prompt`: the full user prompt text. -/
def build_serializer_prompt (appLabel modelName : String) (fields : List FieldMeta) :
    String :=
  "\nYou are given a Django model definition.\n\nApp label: " ++ appLabel ++
  "\nModel name: " ++ modelName ++ "\n\nFields:\n" ++ fieldsLines fields ++
  "\n\nTask:\nWrite a Django REST Framework ModelSerializer named " ++ modelName ++
  "Serializer for this model.\n\nRules:\n- Import from rest_framework import serializers.\n" ++
  "- Use serializers.ModelSerializer.\n- Define Meta.model = " ++ modelName ++
  ".\n- Set Meta.fields = \"__all__\".\n- Do NOT include any explanation or comments.\n" ++
  "- Output ONLY valid Python code that can be appended to a serializers module.\n"

/-- The prompt built for one model inside `_generate_for_app` (line 199). -/
def promptFor (appLabel : String) (m : MModel) : String :=
  build_serializer_prompt appLabel m.name (collectFieldsMeta m.fields)

/-- Result of one call to the remote text-generation collaborator, as
observed by the `try/except` at lines 207-216: a returned text, an
`OpenAIConfigError`, or any other exception. -/
inductive LLMResult where
  | ok (text : String)
  | configError (msg : String)
  | otherError (msg : String)
deriving DecidableEq, Repr

/-- Per-unit outcome of the generation loop (spec section 4.4). -/
inductive Outcome where
  | written (name : String)
  | skippedFiltered (name : String)
  | skippedEmpty (name : String)
  | failedConfig (name : String)
  | failedOther (name : String)
deriving DecidableEq, Repr

/-- Whether an outcome is a successful write. -/
def isWritten : Outcome → Bool
  | .written _ => true
  | _ => false

/-- Line 183: `if model_name_filter and model_name != model_name_filter`
— the `--model` filter skips a unit only when the filter is present,
non-empty (Python truthiness) and different from the unit name. -/
def filterSkips (filt : Option String) (name : String) : Bool :=
  match filt with
  | none => false
  | some f => f != "" && name != f

/-- Python `str.strip()`: drop leading and trailing whitespace.
(Defined over the character list so that it is kernel-reducible.) -/
def pyStrip (s : String) : String :=
  String.mk (((s.data.dropWhile Char.isWhitespace).reverse.dropWhile
    Char.isWhitespace).reverse)

/-- Lines 227-231: one append to the artifact — the code, a newline
only if the code does not already end in one, then a blank line. -/
def sepAppend (content code : String) : String :=
  content ++ code ++ (if code.endsWith "\n" then "" else "\n") ++ "\n\n"

/-- The per-unit loop of `_generate_for_app` (lines 180-238), threading
the artifact content. Returns the final content, the per-unit outcomes
in order, and whether an `OpenAIConfigError` made the method `return`
early (line 211). On a config error the remaining units are not
reached; on any other error or an empty/whitespace-only response the
loop `continue`s. -/
def genLoop (oracle : String → LLMResult) (lbl : String) (filt : Option String) :
    List MModel → String → String × List Outcome × Bool
  | [], content => (content, [], false)
  | m :: rest, content =>
    if filterSkips filt m.name then
      let r := genLoop oracle lbl filt rest content
      (r.1, .skippedFiltered m.name :: r.2.1, r.2.2)
    else
      match oracle (promptFor lbl m) with
      | .configError _ => (content, [.failedConfig m.name], true)
      | .otherError _ =>
        let r := genLoop oracle lbl filt rest content
        (r.1, .failedOther m.name :: r.2.1, r.2.2)
      | .ok code =>
        if pyStrip code = "" then
          let r := genLoop oracle lbl filt rest content
          (r.1, .skippedEmpty m.name :: r.2.1, r.2.2)
        else
          let r := genLoop oracle lbl filt rest (sepAppend content code)
          (r.1, .written m.name :: r.2.1, r.2.2)

/-- The filesystem: a map from path to file content, `none` = absent. -/
abbrev FS := String → Option String

/-- Writing (creating or replacing) a file. -/
def fsWrite (fs : FS) (p c : String) : FS :=
  fun q => if q = p then some c else fs q

/-- The filesystem with no files. -/
def emptyFS : FS := fun _ => none

/-- Lines 175-178: the one-line import header plus blank line seeded
into a fresh artifact. -/
def header : String := "from rest_framework import serializers\n\n"

/-- Line 171: `<app path>/api_serializers_ai.py`. -/
def serializersPath (app : AppConfig) : String :=
  app.path ++ "/api_serializers_ai.py"

/-- `_generate_for_app` (lines 167-238): create the artifact with its
header if and only if the file does not exist (lines 174-178), then run
the per-unit loop, all appends landing in that one file. -/
def generateForApp (oracle : String → LLMResult) (fs : FS) (app : AppConfig)
    (models : List MModel) (filt : Option String) : FS × List Outcome × Bool :=
  let path := serializersPath app
  let fs1 := match fs path with
    | some _ => fs
    | none => fsWrite fs path header
  let content := (fs1 path).getD ""
  let r := genLoop oracle app.label filt models content
  (fsWrite fs1 path r.1, r.2.1, r.2.2)

/-- Lines 161-163 of `handle`: the generation phase iterates the whole
`app_models_map` and calls `_generate_for_app` for each entry,
regardless of what earlier entries returned. -/
def generatePhase (oracle : String → LLMResult) (filt : Option String) :
    List (AppConfig × List MModel) → FS → FS × List (String × List Outcome)
  | [], fs => (fs, [])
  | (app, models) :: rest, fs =>
    let r := generateForApp oracle fs app models filt
    let r2 := generatePhase oracle filt rest r.1
    (r2.1, (app.label, r.2.1) :: r2.2)

/-- `handle` (lines 46-165) on the non-interactive path (`--yes`): the
filter chain, the scan, the early returns for "no matching apps", "no
apps with models", `--budget-only` and "no models", then the generation
phase. Printing is dropped; the returned value is the final filesystem
and the per-collection outcome lists (empty when generation was never
entered). -/
def handleRun (allApps : List AppConfig) (includeApps : Option (List String))
    (excludeApps : List String) (cliApp : Option String) (includeEmpty : Bool)
    (budgetOnly : Bool) (filt : Option String) (oracle : String → LLMResult)
    (fs : FS) : FS × List (String × List Outcome) :=
  let apps := selectApps allApps includeApps excludeApps cliApp
  if apps.isEmpty then (fs, [])
  else
    let amap := scanApps includeEmpty apps
    if amap.length = 0 then (fs, [])
    else if budgetOnly then (fs, [])
    else if totalModels amap = 0 then (fs, [])
    else generatePhase oracle filt amap fs

/-- `llm_client.API_KEY`: the module-level constant, empty in source. -/
def API_KEY : String := ""

/-- The `OpenAIConfigError` message raised by `_get_api_key`. -/
def configErrorMsg : String :=
  "No OpenAI API key configured.\n\nEither:\n  1) Set environment variable OPENAI_API_KEY, or\n  2) Paste your key into django_auto_api/llm_client.py in API_KEY.\n"

/-- `llm_client._get_api_key`, with the module constant as an explicit
parameter: `key = os.getenv(\x22OPENAI_API_KEY\x22) or API_KEY`, raising
`OpenAIConfigError` when the result is empty. `env = none` is an unset
variable; `some \x22\x22` is set-but-empty (both falsy in Python). -/
def get_api_key_with (env : Option String) (apiKey : String) : Except String String :=
  let key := match env with
    | some k => if k = "" then apiKey else k
    | none => apiKey
  if key = "" then .error configErrorMsg else .ok key

/-- `_get_api_key` exactly as shipped: module constant `API_KEY = ""`. -/
def get_api_key (env : Option String) : Except String String :=
  get_api_key_with env API_KEY

/-- `llm_client.generate_code` with the module constant explicit. The
key lookup happens first (inside `_get_client`); only on success is a
request sent. `net` models the remote service returning the first
choice's message content, which may be null (line 64: `... or ""`).
The second component is the list of requests actually sent. -/
def generate_code_with (env : Option String) (apiKey : String)
    (net : String → Option String) (prompt : String) :
    Except String String × List String :=
  match get_api_key_with env apiKey with
  | .error e => (.error e, [])
  | .ok _ => (.ok ((net prompt).getD ""), [prompt])

/-- `generate_code` exactly as shipped: module constant `API_KEY = ""`. -/
def generate_code (env : Option String) (net : String → Option String)
    (prompt : String) : Except String String × List String :=
  generate_code_with env API_KEY net prompt

/-! Concrete sample data used by witnesses and counterexamples. -/

/-- A plain concrete field (`title = CharField`). -/
def fieldTitle : Field := ⟨"title", "CharField", false, true⟩

/-- A concrete auto-created primary key (`id = AutoField`). -/
def fieldId : Field := ⟨"id", "AutoField", true, true⟩

/-- A reverse, non-concrete auto-created relation. -/
def fieldRev : Field := ⟨"comments", "ManyToOneRel", true, false⟩

/-- A sample model with one plain field. -/
def modelA : MModel := ⟨"A", [fieldTitle]⟩

/-- A second sample model. -/
def modelB : MModel := ⟨"B", [fieldId]⟩

/-- A sample app with one model. -/
def appA : AppConfig := ⟨"blog", "blog", "blog", [modelA]⟩

/-- A sample app with no models. -/
def appB : AppConfig := ⟨"shop", "shop", "shop", []⟩

/-- A second sample app with one model. -/
def appC : AppConfig := ⟨"cart", "cart", "cart", [modelB]⟩

/-- An oracle whose every call raises `OpenAIConfigError`. -/
def cfgErrOracle : String → LLMResult := fun _ => .configError "no key"

/-- An oracle whose every call succeeds with a fixed code snippet. -/
def okOracle : String → LLMResult := fun _ => .ok "class S: pass"

/-- An oracle whose every call succeeds with whitespace-only text. -/
def blankOracle : String → LLMResult := fun _ => .ok "  \n"

/-- A filesystem holding one artifact for `appA` with content "X". -/
def fsX : FS := fsWrite emptyFS (serializersPath appA) "X"

/-! Helper lemmas. -/

/-- String append is associative. -/
theorem str_append_assoc (a b c : String) : a ++ b ++ c = a ++ (b ++ c) := by
  apply String.ext
  simp

/-- Appending to the empty string is the identity. -/
theorem str_empty_append (s : String) : "" ++ s = s := by
  apply String.ext
  simp

/-- `sepAppend` splits off its starting content. -/
theorem sepAppend_eq (content code : String) :
    sepAppend content code = content ++ sepAppend "" code := by
  simp [sepAppend, str_empty_append, str_append_assoc]

/-- Reading back the path just written. -/
theorem fsWrite_same (fs : FS) (p c : String) : fsWrite fs p c p = some c := by
  simp [fsWrite]

/-- The content produced by the generation loop is its starting content
followed by a delta that does not depend on the starting content. -/
theorem genLoop_content (oracle : String → LLMResult) (lbl : String)
    (filt : Option String) (ms : List MModel) :
    ∀ c : String, (genLoop oracle lbl filt ms c).1 =
      c ++ (genLoop oracle lbl filt ms "").1 := by
  induction ms with
  | nil => intro c; simp [genLoop]
  | cons m rest ih =>
    intro c
    by_cases hf : filterSkips filt m.name
    · simp only [genLoop, hf, if_true]
      exact ih c
    · cases ho : oracle (promptFor lbl m) with
      | configError msg => simp [genLoop, hf, ho]
      | otherError msg =>
        simp only [genLoop, hf, Bool.false_eq_true, if_false, ho]
        exact ih c
      | ok code =>
        by_cases he : pyStrip code = ""
        · simp only [genLoop, hf, Bool.false_eq_true, if_false, ho, he, if_true]
          exact ih c
        · simp only [genLoop, hf, Bool.false_eq_true, if_false, ho, he, if_neg]
          rw [ih (sepAppend c code), ih (sepAppend "" code)]
          rw [sepAppend_eq c code, str_append_assoc]

/-- When no unit outcome is a write, the loop leaves the content as it
found it. -/
theorem genLoop_no_write (oracle : String → LLMResult) (lbl : String)
    (filt : Option String) (ms : List MModel) :
    ∀ c : String,
      (∀ o ∈ (genLoop oracle lbl filt ms c).2.1, isWritten o = false) →
      (genLoop oracle lbl filt ms c).1 = c := by
  induction ms with
  | nil => intro c _; simp [genLoop]
  | cons m rest ih =>
    intro c h
    by_cases hf : filterSkips filt m.name
    · simp only [genLoop, hf, if_true] at h ⊢
      exact ih c (fun o ho => h o (List.mem_cons_of_mem _ ho))
    · cases ho : oracle (promptFor lbl m) with
      | configError msg => simp [genLoop, hf, ho]
      | otherError msg =>
        simp only [genLoop, hf, Bool.false_eq_true, if_false, ho] at h ⊢
        exact ih c (fun o hm => h o (List.mem_cons_of_mem _ hm))
      | ok code =>
        by_cases he : pyStrip code = ""
        · simp only [genLoop, hf, Bool.false_eq_true, if_false, ho, he, if_true] at h ⊢
          exact ih c (fun o hm => h o (List.mem_cons_of_mem _ hm))
        · exfalso
          have hw := h (.written m.name) (by simp [genLoop, hf, ho, he])
          simp [isWritten] at hw

/-- Membership in `applyIncludeApps` implies membership in the input. -/
theorem mem_of_mem_applyIncludeApps (includeApps : Option (List String))
    (apps : List AppConfig) (a : AppConfig)
    (h : a ∈ applyIncludeApps includeApps apps) : a ∈ apps := by
  cases includeApps with
  | none => exact h
  | some incl =>
    simp only [applyIncludeApps] at h
    by_cases hie : incl.isEmpty = true
    · rw [if_pos hie] at h; exact h
    · rw [if_neg hie] at h; exact List.mem_of_mem_filter h

/-- Membership in `applyCliApp` implies membership in the input. -/
theorem mem_of_mem_applyCliApp (cli : Option String) (apps : List AppConfig)
    (a : AppConfig) (h : a ∈ applyCliApp cli apps) : a ∈ apps := by
  cases cli with
  | none => exact h
  | some lbl =>
    simp only [applyCliApp] at h
    by_cases hl : lbl = ""
    · rw [if_pos hl] at h; exact h
    · rw [if_neg hl] at h; exact List.mem_of_mem_filter h

/-- C6: for every inclusion policy (any allow-list, exclude-set and CLI
filter) and every set of registered collections, `selectApps` never
returns a collection in the `django.contrib` namespace: the contrib
exclusion is the first stage and every later stage only narrows. -/
theorem select_excludes_contrib (all : List AppConfig)
    (includeApps : Option (List String)) (excl : List String)
    (cli : Option String) (a : AppConfig)
    (h : a ∈ selectApps all includeApps excl cli) :
    a.name.startsWith "django.contrib" = false := by
  have h1 : a ∈ applyCliApp cli (applyIncludeApps includeApps (dropContrib all)) :=
    List.mem_of_mem_filter h
  have h2 : a ∈ applyIncludeApps includeApps (dropContrib all) :=
    mem_of_mem_applyCliApp _ _ _ h1
  have h3 : a ∈ dropContrib all := mem_of_mem_applyIncludeApps _ _ _ h2
  have h4 := (List.mem_filter.mp h3).2
  simpa using h4

/-- Witness for `select_excludes_contrib` at a concrete policy. -/
theorem select_excludes_contrib_witness :
    appA ∈ selectApps [appA, appB] none ["shop"] none ∧
    appA.name.startsWith "django.contrib" = false :=
  ⟨by decide, select_excludes_contrib [appA, appB] none ["shop"] none appA (by decide)⟩

/-- C5: with a non-empty allow-list and a CLI `--app` label outside it,
the selection chain returns the empty list — the CLI filter intersects
the allow-list result instead of overriding it. -/
theorem cli_filter_outside_allow_list_empty (all : List AppConfig)
    (incl : List String) (excl : List String) (lbl : String)
    (hne : incl ≠ []) (hlbl : lbl ≠ "") (hout : lbl ∉ incl) :
    selectApps all (some incl) excl (some lbl) = [] := by
  have hie : incl.isEmpty = false := by
    cases incl with
    | nil => exact absurd rfl hne
    | cons x xs => rfl
  rw [List.eq_nil_iff_forall_not_mem]
  intro a ha
  simp only [selectApps, applyExcludeApps, applyCliApp, applyIncludeApps, dropContrib,
    hie, Bool.false_eq_true, if_false, if_neg hlbl, List.mem_filter] at ha
  have hmem : a.label ∈ incl := by simpa using ha.1.1.2
  have heq : a.label = lbl := by simpa using ha.1.2
  exact hout (heq ▸ hmem)

/-- Witness for `cli_filter_outside_allow_list_empty`. -/
theorem cli_filter_witness :
    (["cart"] : List String) ≠ [] ∧ ("blog" : String) ≠ "" ∧
    ("blog" : String) ∉ (["cart"] : List String) ∧
    selectApps [appA, appC] (some ["cart"]) [] (some "blog") = [] :=
  ⟨by decide, by decide, by decide,
   cli_filter_outside_allow_list_empty [appA, appC] ["cart"] [] "blog"
     (by decide) (by decide) (by decide)⟩

/-- C4: the field-metadata loop keeps a field iff it is not
(auto-created and non-concrete), records name and type tag, and
preserves order: it equals a filter-then-map over the native field
list. In particular a concrete auto-created field (primary key) is
kept and an auto-created non-concrete field (reverse relation) is
dropped. -/
theorem field_metadata_keep_iff (fields : List Field) :
    collectFieldsMeta fields
      = (fields.filter (fun f => !(f.auto_created && !f.concrete))).map
          (fun f => ⟨f.name, f.ftype⟩)
    ∧ (∀ f : Field, f.auto_created = true → f.concrete = true →
        collectFieldsMeta [f] = [⟨f.name, f.ftype⟩])
    ∧ (∀ f : Field, f.auto_created = true → f.concrete = false →
        collectFieldsMeta [f] = []) := by
  refine ⟨?_, ?_, ?_⟩
  · induction fields with
    | nil => simp [collectFieldsMeta]
    | cons f rest ih =>
      cases ha : f.auto_created <;> cases hc : f.concrete <;>
        simp [collectFieldsMeta, List.filter_cons, ha, hc, ih]
  · intro f h1 h2
    simp [collectFieldsMeta, h1, h2]
  · intro f h1 h2
    simp [collectFieldsMeta, h1, h2]

/-- Witness for `field_metadata_keep_iff`: the concrete auto-created
`id` field is kept, the reverse relation is dropped. -/
theorem field_metadata_witness :
    fieldId.auto_created = true ∧ fieldId.concrete = true ∧
    collectFieldsMeta [fieldId] = [⟨"id", "AutoField"⟩] ∧
    fieldRev.auto_created = true ∧ fieldRev.concrete = false ∧
    collectFieldsMeta [fieldRev] = [] :=
  ⟨rfl, rfl, (field_metadata_keep_iff []).2.1 fieldId rfl rfl, rfl, rfl,
   (field_metadata_keep_iff []).2.2 fieldRev rfl rfl⟩

/-- C7: for a positive unit count the estimator projects exactly
`1000 * n` tokens and `(1000 * n / 1000) * 0.0009` cost, for zero units
it yields the no-projection result, and with `--budget-only` the run
returns before the generation phase: the filesystem is untouched and no
unit outcome (hence no remote call) is produced. -/
theorem estimate_formulas (n : Nat) (h : 0 < n) :
    estimate n = some ⟨n, 1000 * n, ((1000 * n : ℚ) / 1000) * 0.0009⟩
    ∧ estimate 0 = none
    ∧ ∀ (allApps : List AppConfig) (includeApps : Option (List String))
        (excl : List String) (cli : Option String) (ie : Bool)
        (filt : Option String) (oracle : String → LLMResult) (fs : FS),
        handleRun allApps includeApps excl cli ie true filt oracle fs = (fs, []) := by
  refine ⟨?_, rfl, ?_⟩
  · have hn : n ≠ 0 := Nat.pos_iff_ne_zero.mp h
    simp only [estimate, hn, if_false, Option.some.injEq, avg_tokens_per_model,
      price_per_1k, Estimate.mk.injEq, true_and]
    constructor
    · exact Nat.mul_comm n 1000
    · push_cast
      ring
  · intro allApps includeApps excl cli ie filt oracle fs
    by_cases h1 : (selectApps allApps includeApps excl cli).isEmpty
    · simp [handleRun, h1]
    · by_cases h2 : (scanApps ie (selectApps allApps includeApps excl cli)).length = 0
      · simp [handleRun, h1, h2]
      · simp [handleRun, h1, h2]

/-- Witness for `estimate_formulas` at `n = 3`. -/
theorem estimate_witness :
    0 < 3 ∧ estimate 3 = some ⟨3, 1000 * 3, ((1000 * 3 : ℚ) / 1000) * 0.0009⟩ :=
  ⟨by decide, (estimate_formulas 3 (by decide)).1⟩

/-- C1 counterexample: two selected collections, one unit each, and a
collaborator that raises `OpenAIConfigError` on every call. The claim
says only the first unit is attempted and no unit of a later collection
is ever attempted; the code attempts the second collection's unit too
(its `failedConfig` outcome records a real call), because the `return`
at line 211 leaves only `_generate_for_app` while the loop at lines
161-163 moves on to the next app. -/
theorem config_error_cross_collection_counterexample :
    (generatePhase cfgErrOracle none [(appA, [modelA]), (appC, [modelB])] emptyFS).2
      = [("blog", [.failedConfig "A"]), ("cart", [.failedConfig "B"])] := by
  decide

/-- C1 amended: a configuration-class failure aborts only the remainder
of the *current* collection — the unit gets outcome `failedConfig`, no
later unit of that collection is reached and its artifact content is
left as it was; any other remote-call failure skips just that unit and
the loop continues; and the phase always proceeds to the next selected
collection regardless of how the previous one ended. -/
theorem config_error_aborts_current_collection_only
    (oracle : String → LLMResult) (lbl : String) (filt : Option String)
    (m : MModel) (rest : List MModel) (c : String)
    (hf : filterSkips filt m.name = false) :
    (∀ msg, oracle (promptFor lbl m) = .configError msg →
      genLoop oracle lbl filt (m :: rest) c = (c, [.failedConfig m.name], true))
    ∧ (∀ msg, oracle (promptFor lbl m) = .otherError msg →
      genLoop oracle lbl filt (m :: rest) c =
        ((genLoop oracle lbl filt rest c).1,
         .failedOther m.name :: (genLoop oracle lbl filt rest c).2.1,
         (genLoop oracle lbl filt rest c).2.2))
    ∧ (∀ (fs : FS) (app : AppConfig) (ms : List MModel)
        (restMap : List (AppConfig × List MModel)),
        (generatePhase oracle filt ((app, ms) :: restMap) fs).2
          = (app.label, (generateForApp oracle fs app ms filt).2.1)
            :: (generatePhase oracle filt restMap
                  (generateForApp oracle fs app ms filt).1).2) := by
  refine ⟨?_, ?_, ?_⟩
  · intro msg ho
    simp [genLoop, hf, ho]
  · intro msg ho
    simp [genLoop, hf, ho]
  · intro fs app ms restMap
    simp [generatePhase]

/-- Witness for `config_error_aborts_current_collection_only`. -/
theorem config_error_abort_witness :
    filterSkips none modelA.name = false ∧
    cfgErrOracle (promptFor "blog" modelA) = .configError "no key" ∧
    genLoop cfgErrOracle "blog" none [modelA, modelB] "seed"
      = ("seed", [.failedConfig "A"], true) :=
  ⟨rfl, rfl,
   (config_error_aborts_current_collection_only cfgErrOracle "blog" none modelA
     [modelB] "seed" rfl).1 "no key" rfl⟩

/-- An entry of the scanned map is an input app paired with its own
model list, and was not skipped: it has a model or the include-empty
flag was set. -/
theorem mem_scanApps (apps : List AppConfig) (ie : Bool)
    (a : AppConfig) (ms : List MModel)
    (h : (a, ms) ∈ scanApps ie apps) :
    ms = a.models ∧ a ∈ apps ∧ (a.models ≠ [] ∨ ie = true) := by
  induction apps with
  | nil => simp [scanApps] at h
  | cons b rest ih =>
    by_cases hb : (b.models.isEmpty && !ie) = true
    · rw [scanApps, if_pos hb] at h
      obtain ⟨h1, h2, h3⟩ := ih h
      exact ⟨h1, List.mem_cons_of_mem _ h2, h3⟩
    · rw [scanApps, if_neg hb] at h
      rcases List.mem_cons.mp h with heq | hmem
      · rw [Prod.mk.injEq] at heq
        obtain ⟨rfl, rfl⟩ := heq
        refine ⟨rfl, List.mem_cons_self _ _, ?_⟩
        cases hM : a.models.isEmpty with
        | true =>
          cases hI : ie with
          | true => exact Or.inr rfl
          | false => exact absurd (by simp [hM, hI]) hb
        | false =>
          exact Or.inl (by simpa using List.isEmpty_eq_false.mp hM)
      · obtain ⟨h1, h2, h3⟩ := ih hmem
        exact ⟨h1, List.mem_cons_of_mem _ h2, h3⟩

/-- C2 counterexample: with `--include-empty`, an app with zero models
is put into `app_models_map` (line 102) — the generation map does not
exclude it — and at this concrete input it even reaches the generation
phase, which creates its header artifact; the claim says the map still
excludes such a collection. -/
theorem empty_collection_in_generation_map :
    (appB, ([] : List MModel)) ∈
      scanApps true (selectApps [appA, appB] none [] none)
    ∧ (handleRun [appA, appB] none [] none true false none okOracle emptyFS).1
        (serializersPath appB) = some header := by
  constructor
  · decide
  · decide

/-- C2 amended: a collection appears in the generation map (the
collection-to-unit-list mapping handed to the Generator) only if it
survived every filter stage and has at least one model unit or
`--include-empty` was given, always paired with its own unit list; with
`include_empty = true` an empty collection may appear in the map as
well as in the printed report — the map does not exclude it. -/
theorem generation_map_entry_only_if (all : List AppConfig)
    (includeApps : Option (List String)) (excl : List String)
    (cli : Option String) (ie : Bool) (a : AppConfig) (ms : List MModel)
    (h : (a, ms) ∈ scanApps ie (selectApps all includeApps excl cli)) :
    ms = a.models ∧ a ∈ selectApps all includeApps excl cli ∧
      (a.models ≠ [] ∨ ie = true) :=
  mem_scanApps (selectApps all includeApps excl cli) ie a ms h

/-- Witness for `generation_map_entry_only_if`. -/
theorem scan_map_entry_witness :
    (appA, [modelA]) ∈ scanApps false (selectApps [appA, appB] none [] none) ∧
    ([modelA] = appA.models ∧ appA ∈ selectApps [appA, appB] none [] none ∧
      (appA.models ≠ [] ∨ false = true)) :=
  ⟨by decide, generation_map_entry_only_if [appA, appB] none [] none false appA
    [modelA] (by decide)⟩

/-- C3: a run never truncates or rewrites an existing artifact. If the
file already holds `X`, then after `_generate_for_app` it holds `X`
followed by exactly the generated delta (the loop appends each unit's
text via `sepAppend`: the text, a newline only when it does not already
end in one, and a blank separator line), and no header is re-written:
the old content is a prefix of the new content. -/
theorem run_appends_never_truncates (oracle : String → LLMResult) (fs : FS)
    (app : AppConfig) (ms : List MModel) (filt : Option String) (X : String)
    (h : fs (serializersPath app) = some X) :
    (generateForApp oracle fs app ms filt).1 (serializersPath app)
      = some (X ++ (genLoop oracle app.label filt ms "").1) := by
  simp only [generateForApp, h, Option.getD_some]
  rw [fsWrite_same]
  rw [genLoop_content]

/-- Witness for `run_appends_never_truncates`: an artifact holding "X"
still begins with "X" after a run that appends one generated unit. -/
theorem run_appends_witness :
    fsX (serializersPath appA) = some "X" ∧
    (generateForApp okOracle fsX appA [modelA] none).1 (serializersPath appA)
      = some ("X" ++ (genLoop okOracle appA.label none [modelA] "").1) :=
  ⟨by decide,
   run_appends_never_truncates okOracle fsX appA [modelA] none "X" (by decide)⟩

/-- C8: a unit whose remote call succeeds with empty or whitespace-only
text gets outcome `skippedEmpty`, nothing is appended for it (the rest
of the loop starts from the same content) and the loop continues with
the next unit. The empty text can arise at `llm_client.py` line 64,
where a null message content is turned into `""` after a successful
call. -/
theorem empty_response_skipped_no_write (oracle : String → LLMResult)
    (lbl : String) (filt : Option String) (m : MModel) (rest : List MModel)
    (c code : String)
    (hf : filterSkips filt m.name = false)
    (ho : oracle (promptFor lbl m) = .ok code)
    (he : pyStrip code = "") :
    genLoop oracle lbl filt (m :: rest) c =
      ((genLoop oracle lbl filt rest c).1,
       .skippedEmpty m.name :: (genLoop oracle lbl filt rest c).2.1,
       (genLoop oracle lbl filt rest c).2.2)
    ∧ (∀ (key : String) (net : String → Option String) (p : String), key ≠ "" →
        generate_code_with (some key) "" net p = (.ok ((net p).getD ""), [p])) := by
  constructor
  · simp [genLoop, hf, ho, he]
  · intro key net p hk
    simp [generate_code_with, get_api_key_with, hk]

/-- Witness for `empty_response_skipped_no_write`: a whitespace-only
response leaves the content untouched and continues to the next unit. -/
theorem empty_response_witness :
    filterSkips none modelA.name = false ∧
    blankOracle (promptFor "blog" modelA) = .ok "  \n" ∧
    pyStrip "  \n" = "" ∧
    genLoop blankOracle "blog" none [modelA, modelB] "seed"
      = ((genLoop blankOracle "blog" none [modelB] "seed").1,
         .skippedEmpty "A" :: (genLoop blankOracle "blog" none [modelB] "seed").2.1,
         (genLoop blankOracle "blog" none [modelB] "seed").2.2) :=
  ⟨rfl, rfl, by decide,
   (empty_response_skipped_no_write blankOracle "blog" none modelA [modelB]
     "seed" "  \n" rfl rfl (by decide)).1⟩

/-- C9: the key lookup fails iff both the environment variable and the
module-level constant are empty (unset and set-to-empty are alike,
as in Python truthiness); a non-empty environment value wins over any
constant; and on a configuration error `generate_code` sends no request
at all. -/
theorem api_key_resolution (env : Option String) (apiKey : String)
    (net : String → Option String) (prompt : String) :
    ((∃ e, get_api_key_with env apiKey = .error e) ↔
      (env.getD "" = "" ∧ apiKey = ""))
    ∧ (∀ k, env = some k → k ≠ "" → get_api_key_with env apiKey = .ok k)
    ∧ (∀ e, get_api_key_with env apiKey = .error e →
        generate_code_with env apiKey net prompt = (.error e, [])) := by
  refine ⟨?_, ?_, ?_⟩
  · cases env with
    | none =>
      by_cases hk : apiKey = "" <;> simp [get_api_key_with, hk]
    | some k =>
      by_cases hke : k = "" <;> by_cases hk : apiKey = "" <;>
        simp [get_api_key_with, hke, hk]
  · intro k hk hne
    subst hk
    simp [get_api_key_with, hne]
  · intro e he
    simp [generate_code_with, he]

/-- Witness for `api_key_resolution`: with neither key set the call
errors with no request sent; a non-empty environment key wins. -/
theorem api_key_witness :
    get_api_key_with none "" = .error configErrorMsg ∧
    generate_code_with none "" (fun _ => none) "p" = (.error configErrorMsg, []) ∧
    get_api_key_with (some "sk-env") "sk-file" = .ok "sk-env" :=
  ⟨rfl,
   (api_key_resolution none "" (fun _ => none) "p").2.2 configErrorMsg rfl,
   (api_key_resolution (some "sk-env") "sk-file" (fun _ => none) "p").2.1
     "sk-env" rfl (by decide)⟩

/-- C10: when a collection enters the generation phase with no artifact
on disk, the artifact is created seeded with the header before the unit
loop runs: afterwards it always exists and holds the header followed by
whatever the loop appended — in particular exactly the header when no
unit was written (all filtered, failed, or empty). -/
theorem artifact_created_with_header_before_units (oracle : String → LLMResult)
    (fs : FS) (app : AppConfig) (ms : List MModel) (filt : Option String)
    (h : fs (serializersPath app) = none) :
    (generateForApp oracle fs app ms filt).1 (serializersPath app)
      = some (header ++ (genLoop oracle app.label filt ms "").1)
    ∧ ((∀ o ∈ (generateForApp oracle fs app ms filt).2.1, isWritten o = false) →
        (generateForApp oracle fs app ms filt).1 (serializersPath app)
          = some header) := by
  constructor
  · simp only [generateForApp, h, fsWrite_same, Option.getD_some]
    rw [genLoop_content]
  · intro hno
    simp only [generateForApp, h, fsWrite_same, Option.getD_some] at hno ⊢
    rw [genLoop_no_write oracle app.label filt ms header hno]

/-- Witness for `artifact_created_with_header_before_units`: a config
error on the only unit still leaves a fresh header-only artifact. -/
theorem artifact_created_witness :
    emptyFS (serializersPath appA) = none ∧
    (generateForApp cfgErrOracle emptyFS appA [modelA] none).1 (serializersPath appA)
      = some header :=
  ⟨rfl,
   (artifact_created_with_header_before_units cfgErrOracle emptyFS appA [modelA]
     none rfl).2 (by decide)⟩

end AutoApi
